import Mathlib

/-!
Shallow embedding of the request-dispatch and parameter-resolution core of
the bitbucket-server-mcp-server (src/index.ts, `BitbucketServer`).

The dispatcher receives an untyped argument bag whose fields are arbitrary
JavaScript values; `JSValue` models that value universe, `Option JSValue`
an object field that may be absent (`none` = the field is missing /
`undefined`).  JavaScript truthiness (used pervasively by the source via
`||`, `&&` and `if (x)`) is modelled by `jsTruthy`.
-/

set_option autoImplicit false

namespace BitbucketMcp

/-- A JavaScript runtime value, as coarse as the dispatch core needs:
strings, numbers (integral — the source only handles ids, line numbers and
pagination counters), booleans, `null`, arrays and plain objects.  The
core only ever asks whether a value is an array (`Array.isArray`) and maps
over reviewer usernames, so array elements are modelled as strings. -/
inductive JSValue where
  | str (s : String)
  | num (n : Int)
  | bool (b : Bool)
  | null
  | arr (elems : List String)
  | obj
  deriving Repr, DecidableEq

/-- JavaScript truthiness of a value: `''`, `0`, `false` and `null` are
falsy, everything else (including empty arrays and objects) is truthy. -/
def jsTruthy : JSValue → Bool
  | .str s => s ≠ ""
  | .num n => n ≠ 0
  | .bool b => b
  | .null => false
  | .arr _ => true
  | .obj => true

/-- Truthiness of a possibly-absent object field: an absent field reads as
`undefined`, which is falsy. -/
def optTruthy : Option JSValue → Bool
  | none => false
  | some v => jsTruthy v

/-- JavaScript `x || d` on a possibly-absent `x`: the left operand when it
is truthy, otherwise the default. -/
def jsOr : Option JSValue → JSValue → JSValue
  | some v, d => if jsTruthy v then v else d
  | none, d => d

/-- String interpolation of a value in a template literal. -/
def jsToString : JSValue → String
  | .str s => s
  | .num n => toString n
  | .bool b => if b then "true" else "false"
  | .null => "null"
  | .arr elems => String.intercalate "," elems
  | .obj => "[object Object]"

/-- String interpolation of a possibly-absent field (`undefined`
interpolates as the literal text `undefined`). -/
def jsToStringOpt : Option JSValue → String
  | none => "undefined"
  | some v => jsToString v

/-- The MCP SDK protocol error codes (`ErrorCode` from
`@modelcontextprotocol/sdk/types.js`) used by the source. -/
inductive ErrorCode where
  | parseError
  | invalidRequest
  | methodNotFound
  | invalidParams
  | internalError
  deriving Repr, DecidableEq

/-- An `McpError` as thrown by the source: a protocol error code plus a
human-readable message. -/
structure McpError where
  code : ErrorCode
  message : String
  deriving Repr, DecidableEq

/-- Truthiness of an optional environment-variable string (`undefined` and
`''` are falsy). -/
def strTruthy : Option String → Bool
  | none => false
  | some s => s ≠ ""

/-- The process environment variables read by the constructor. -/
structure Env where
  bitbucketUrl : Option String
  bitbucketToken : Option String
  bitbucketUsername : Option String
  bitbucketPassword : Option String
  bitbucketDefaultProject : Option String
  deriving Repr, DecidableEq

/-- The `this.config` record of `BitbucketServer`: environment-derived settings, read
once at construction (`BitbucketConfig` in the source). -/
structure BitbucketConfig where
  baseUrl : String
  token : Option String
  username : Option String
  password : Option String
  defaultProject : Option String
  deriving Repr, DecidableEq

/-- The authentication-relevant part of the axios instance configuration
built in the constructor: the `Authorization` header (set when a token is
truthy) and the basic-auth option (set when username and password are both
truthy). -/
structure ApiSettings where
  baseURL : String
  authHeader : Option String
  basicAuth : Option (String × String)
  deriving Repr, DecidableEq

/-- The axios instance configuration assembled from a constructed config
(`axios.create` call in the constructor). -/
def mkApiSettings (config : BitbucketConfig) : ApiSettings :=
  { baseURL := config.baseUrl ++ "/rest/api/1.0"
    authHeader :=
      match config.token with
      | some t => if t ≠ "" then some ("Bearer " ++ t) else none
      | none => none
    basicAuth :=
      if strTruthy config.username ∧ strTruthy config.password then
        match config.username, config.password with
        | some u, some p => some (u, p)
        | _, _ => none
      else none }

/-- The `BitbucketServer` constructor: builds `this.config` from the
environment, throws when the base URL is falsy or when neither a truthy
token nor a truthy username/password pair is present, then configures the
axios instance. -/
def mkConfig (env : Env) : Except String (BitbucketConfig × ApiSettings) :=
  let config : BitbucketConfig :=
    { baseUrl := env.bitbucketUrl.getD ""
      token := env.bitbucketToken
      username := env.bitbucketUsername
      password := env.bitbucketPassword
      defaultProject := env.bitbucketDefaultProject }
  if config.baseUrl = "" then
    .error "BITBUCKET_URL is required"
  else if ¬ strTruthy config.token ∧
      ¬ (strTruthy config.username ∧ strTruthy config.password) then
    .error "Either BITBUCKET_TOKEN or BITBUCKET_USERNAME/PASSWORD is required"
  else
    .ok (config, mkApiSettings config)

/-- Number of authentication modes wired into the axios instance: the
bearer header and the basic-auth option each count as one. -/
def numAuthModes (settings : ApiSettings) : Nat :=
  (if settings.authHeader.isSome then 1 else 0) +
    (if settings.basicAuth.isSome then 1 else 0)

/-- The `InvalidParams` error thrown by `getProject` when neither the
provided value nor the configured default project is truthy. -/
def projectRequiredError : McpError :=
  { code := .invalidParams
    message := "Project must be provided either as a parameter or through BITBUCKET_DEFAULT_PROJECT environment variable" }

/-- The `getProject` helper of the `CallToolRequestSchema` handler:
`providedProject || this.config.defaultProject`, throwing `InvalidParams`
when the result is falsy. -/
def getProject (providedProject : Option JSValue) (defaultProject : Option String) :
    Except McpError JSValue :=
  let project : Option JSValue :=
    if optTruthy providedProject then providedProject
    else defaultProject.map JSValue.str
  match project with
  | some v => if jsTruthy v then .ok v else .error projectRequiredError
  | none => .error projectRequiredError

/-- The untyped argument bag of a `call tool` request
(`request.params.arguments ?? {}`): every field the dispatch core ever
reads, each possibly absent and of arbitrary runtime type (the source's
`as` casts perform no runtime checking). -/
structure Args where
  project : Option JSValue := none
  repository : Option JSValue := none
  prId : Option JSValue := none
  title : Option JSValue := none
  description : Option JSValue := none
  sourceBranch : Option JSValue := none
  targetBranch : Option JSValue := none
  reviewers : Option JSValue := none
  state : Option JSValue := none
  role : Option JSValue := none
  order : Option JSValue := none
  limit : Option JSValue := none
  start : Option JSValue := none
  message : Option JSValue := none
  strategy : Option JSValue := none
  text : Option JSValue := none
  parentId : Option JSValue := none
  filePath : Option JSValue := none
  lineNumber : Option JSValue := none
  lineType : Option JSValue := none
  fileType : Option JSValue := none
  diffType : Option JSValue := none
  fromHash : Option JSValue := none
  toHash : Option JSValue := none
  contextLines : Option JSValue := none
  deriving Repr, DecidableEq

/-- Whether a possibly-absent field holds a string
(`typeof x === 'string'`; an absent field is `undefined`, not a string). -/
def isStr : Option JSValue → Bool
  | some (.str _) => true
  | _ => false

/-- Whether a possibly-absent field holds an array (`Array.isArray`). -/
def isArr : Option JSValue → Bool
  | some (.arr _) => true
  | _ => false

/-- The `isPullRequestInput` type-guard of `BitbucketServer`: the argument
bag (always an object, so the `typeof args === 'object' && args !== null`
prefix of the source guard holds by construction here) must have string
`repository`, `title`, `sourceBranch` and `targetBranch`; `project` and
`description` absent or string; `reviewers` absent or an array. -/
def isPullRequestInput (args : Args) : Bool :=
  (args.project == none || isStr args.project) &&
    isStr args.repository &&
    isStr args.title &&
    isStr args.sourceBranch &&
    isStr args.targetBranch &&
    (args.description == none || isStr args.description) &&
    (args.reviewers == none || isArr args.reviewers)

/-- A parameter of a tool input schema: field name and declared primitive
type (enumeration constraints elided — the registry is only ever returned
verbatim to the caller, never evaluated). Descriptor prose (the
`description` strings) is likewise elided as an inert constant. -/
structure SchemaProperty where
  name : String
  type : String
  deriving Repr, DecidableEq

/-- A tool descriptor of the `ListToolsRequestSchema` handler: name plus
input schema (properties and required field names). -/
structure ToolDescriptor where
  name : String
  properties : List SchemaProperty
  required : List String
  deriving Repr, DecidableEq

/-- The fixed tool registry returned by the `ListToolsRequestSchema`
handler.  The handler is an arrow closing over no mutable state; it is
modelled as a function of the (immutable) server config, which it
ignores exactly as the source handler does. -/
def listToolsHandler (_config : BitbucketConfig) : List ToolDescriptor :=
  [ { name := "list_projects"
      properties := [⟨"limit", "number"⟩, ⟨"start", "number"⟩]
      required := [] },
    { name := "list_repositories"
      properties := [⟨"project", "string"⟩, ⟨"limit", "number"⟩, ⟨"start", "number"⟩]
      required := [] },
    { name := "list_pull_requests"
      properties := [⟨"project", "string"⟩, ⟨"repository", "string"⟩,
        ⟨"state", "string"⟩, ⟨"role", "string"⟩, ⟨"order", "string"⟩,
        ⟨"limit", "number"⟩, ⟨"start", "number"⟩]
      required := ["repository"] },
    { name := "create_pull_request"
      properties := [⟨"project", "string"⟩, ⟨"repository", "string"⟩,
        ⟨"title", "string"⟩, ⟨"description", "string"⟩,
        ⟨"sourceBranch", "string"⟩, ⟨"targetBranch", "string"⟩,
        ⟨"reviewers", "array"⟩]
      required := ["repository", "title", "sourceBranch", "targetBranch"] },
    { name := "get_pull_request"
      properties := [⟨"project", "string"⟩, ⟨"repository", "string"⟩, ⟨"prId", "number"⟩]
      required := ["repository", "prId"] },
    { name := "merge_pull_request"
      properties := [⟨"project", "string"⟩, ⟨"repository", "string"⟩,
        ⟨"prId", "number"⟩, ⟨"message", "string"⟩, ⟨"strategy", "string"⟩]
      required := ["repository", "prId"] },
    { name := "decline_pull_request"
      properties := [⟨"project", "string"⟩, ⟨"repository", "string"⟩,
        ⟨"prId", "number"⟩, ⟨"message", "string"⟩]
      required := ["repository", "prId"] },
    { name := "add_comment"
      properties := [⟨"project", "string"⟩, ⟨"repository", "string"⟩,
        ⟨"prId", "number"⟩, ⟨"text", "string"⟩, ⟨"parentId", "number"⟩,
        ⟨"filePath", "string"⟩, ⟨"lineNumber", "number"⟩,
        ⟨"lineType", "string"⟩, ⟨"fileType", "string"⟩,
        ⟨"diffType", "string"⟩, ⟨"fromHash", "string"⟩, ⟨"toHash", "string"⟩]
      required := ["repository", "prId", "text"] },
    { name := "get_diff"
      properties := [⟨"project", "string"⟩, ⟨"repository", "string"⟩,
        ⟨"prId", "number"⟩, ⟨"contextLines", "number"⟩]
      required := ["repository", "prId"] },
    { name := "get_reviews"
      properties := [⟨"project", "string"⟩, ⟨"repository", "string"⟩, ⟨"prId", "number"⟩]
      required := ["repository", "prId"] } ]

/-- The `CommentAnchor` built inline by the `add_comment` dispatch case:
`diffType`/`lineType`/`fileType` defaulted via `||`, `path` and `srcPath`
both set to the supplied file path, `fromHash`/`toHash` assigned only when
the corresponding argument is truthy. -/
structure CommentAnchor where
  diffType : JSValue
  line : JSValue
  lineType : JSValue
  fileType : JSValue
  path : JSValue
  srcPath : Option JSValue
  fromHash : Option JSValue
  toHash : Option JSValue
  deriving Repr, DecidableEq

/-- The `InvalidParams` error thrown when a file path is supplied without a
line number. -/
def lineNumberRequiredError : McpError :=
  { code := .invalidParams
    message := "lineNumber is required when filePath is provided for file line comments" }

/-- The anchor-construction block of the `add_comment` dispatch case:
no anchor when `filePath` is falsy; `InvalidParams` when `filePath` is
truthy but `lineNumber` is falsy; otherwise the defaulted anchor. -/
def buildAnchor (args : Args) : Except McpError (Option CommentAnchor) :=
  if optTruthy args.filePath then
    if ! optTruthy args.lineNumber then
      .error lineNumberRequiredError
    else
      .ok (some
        { diffType := jsOr args.diffType (.str "EFFECTIVE")
          line := args.lineNumber.getD .null
          lineType := jsOr args.lineType (.str "CONTEXT")
          fileType := jsOr args.fileType (.str "TO")
          path := args.filePath.getD .null
          srcPath := args.filePath
          fromHash := if optTruthy args.fromHash then args.fromHash else none
          toHash := if optTruthy args.toHash then args.toHash else none })
  else
    .ok none

/-- The anchor object placed in the comment request body by `addComment`:
the five unconditional keys plus `fromHash`/`toHash`/`srcPath`, each
spread in only when truthy (`...(x && { x })`). -/
structure SentAnchor where
  diffType : JSValue
  line : JSValue
  lineType : JSValue
  fileType : JSValue
  path : JSValue
  fromHash : Option JSValue
  toHash : Option JSValue
  srcPath : Option JSValue
  deriving Repr, DecidableEq

/-- The `CommentOptions` record passed from the dispatcher to `addComment`. -/
structure CommentOptions where
  text : Option JSValue
  parentId : Option JSValue
  anchor : Option CommentAnchor
  deriving Repr, DecidableEq

/-- The request body `addComment` posts to the comments endpoint:
`parent` is `{id: parentId}` when `parentId` is truthy and absent
otherwise (modelled by the contained id value); the anchor keys are
conditionally spread. -/
structure CommentRequestBody where
  text : Option JSValue
  parent : Option JSValue
  anchor : Option SentAnchor
  deriving Repr, DecidableEq

/-- The `PullRequestParams` record as assembled by the dispatch cases (project
resolved through `getProject`, repository and prId passed raw). -/
structure PullRequestParams where
  project : Option JSValue
  repository : Option JSValue
  prId : Option JSValue
  deriving Repr, DecidableEq

/-- The `InvalidParams` error of the `!project || !repository || !prId`
guards shared by the pull-request handlers. -/
def prParamsRequiredError : McpError :=
  { code := .invalidParams, message := "Project, repository, and prId are required" }

/-- The shared guard of the pull-request handlers. -/
def prParamsMissing (params : PullRequestParams) : Bool :=
  !(optTruthy params.project) || !(optTruthy params.repository) || !(optTruthy params.prId)

/-- Pull-request endpoint path built by template literal:
`/projects/{project}/repos/{repository}/pull-requests/{prId}{sub}`. -/
def prEndpoint (params : PullRequestParams) (sub : String) : String :=
  "/projects/" ++ jsToStringOpt params.project ++ "/repos/" ++
    jsToStringOpt params.repository ++ "/pull-requests/" ++
    jsToStringOpt params.prId ++ sub

/-- Query parameters of `listPullRequests`: `state`/`role` only when
truthy, `order`/`limit`/`start` always. -/
structure PRListParams where
  state : Option JSValue
  role : Option JSValue
  order : JSValue
  limit : JSValue
  start : JSValue
  deriving Repr, DecidableEq

/-- Request body posted by `createPullRequest`. -/
structure CreatePRBody where
  title : Option JSValue
  description : Option JSValue
  fromRefId : String
  toRefId : String
  repositorySlug : Option JSValue
  projectKey : Option JSValue
  reviewers : Option (List String)
  deriving Repr, DecidableEq

/-- Request body posted by `mergePullRequest` (`version: -1`). -/
structure MergeBody where
  version : Int
  message : Option JSValue
  strategy : JSValue
  deriving Repr, DecidableEq

/-- Request body posted by `declinePullRequest` (`version: -1`). -/
structure DeclineBody where
  version : Int
  message : Option JSValue
  deriving Repr, DecidableEq

/-- The single upstream HTTP call a successful dispatch performs, with the
endpoint and payload the handler computed (the network transfer itself is
the out-of-scope collaborator). -/
inductive ToolResult where
  | projects (limit start : JSValue)
  | repositories (endpoint : String) (limit start : JSValue)
  | pullRequests (endpoint : String) (params : PRListParams)
  | createPR (endpoint : String) (body : CreatePRBody)
  | getPR (endpoint : String)
  | mergePR (endpoint : String) (body : MergeBody)
  | declinePR (endpoint : String) (body : DeclineBody)
  | commentPR (endpoint : String) (body : CommentRequestBody)
  | diffPR (endpoint : String) (contextLines : JSValue)
  | reviewsPR (endpoint : String)
  deriving Repr, DecidableEq

/-- Handler `listProjects`: pagination defaults applied by destructuring
(`limit = 25`, `start = 0` when the field is `undefined`). -/
def listProjects (limit start : Option JSValue) : ToolResult :=
  .projects (limit.getD (.num 25)) (start.getD (.num 0))

/-- Handler `listRepositories`: when `project || this.config.defaultProject` is
truthy, list that project's repositories; otherwise fall back to the
global `/repos` endpoint. -/
def listRepositories (config : BitbucketConfig)
    (project limit start : Option JSValue) : ToolResult :=
  let endpoint :=
    if optTruthy project ∨ strTruthy config.defaultProject then
      let projectKey : Option JSValue :=
        if optTruthy project then project else config.defaultProject.map .str
      "/projects/" ++ jsToStringOpt projectKey ++ "/repos"
    else
      "/repos"
  .repositories endpoint (limit.getD (.num 25)) (start.getD (.num 0))

/-- Handler `listPullRequests`: guard on project and repository, defaulted
ordering and pagination, truthy-only `state`/`role` filters. -/
def listPullRequests (project : JSValue) (repository : Option JSValue)
    (state role order limit start : Option JSValue) : Except McpError ToolResult :=
  if !(jsTruthy project) || !(optTruthy repository) then
    .error { code := .invalidParams, message := "Project and repository are required" }
  else
    .ok (.pullRequests
      ("/projects/" ++ jsToString project ++ "/repos/" ++
        jsToStringOpt repository ++ "/pull-requests")
      { state := if optTruthy state then state else none
        role := if optTruthy role then role else none
        order := order.getD (.str "NEWEST")
        limit := limit.getD (.num 25)
        start := start.getD (.num 0) })

/-- Handler `createPullRequest`: posts the PR body (branch refs prefixed with
`refs/heads/`, reviewers mapped to user records — modelled by their
usernames). -/
def createPullRequest (input : Args) : ToolResult :=
  .createPR
    ("/projects/" ++ jsToStringOpt input.project ++ "/repos/" ++
      jsToStringOpt input.repository ++ "/pull-requests")
    { title := input.title
      description := input.description
      fromRefId := "refs/heads/" ++ jsToStringOpt input.sourceBranch
      toRefId := "refs/heads/" ++ jsToStringOpt input.targetBranch
      repositorySlug := input.repository
      projectKey := input.project
      reviewers :=
        match input.reviewers with
        | some (.arr usernames) => some usernames
        | _ => none }

/-- Handler `getPullRequest`: guard then GET. -/
def getPullRequest (params : PullRequestParams) : Except McpError ToolResult :=
  if prParamsMissing params then .error prParamsRequiredError
  else .ok (.getPR (prEndpoint params ""))

/-- Handler `mergePullRequest`: guard, strategy defaulted to `merge-commit`. -/
def mergePullRequest (params : PullRequestParams)
    (message strategy : Option JSValue) : Except McpError ToolResult :=
  if prParamsMissing params then .error prParamsRequiredError
  else .ok (.mergePR (prEndpoint params "/merge")
    { version := -1, message := message, strategy := strategy.getD (.str "merge-commit") })

/-- Handler `declinePullRequest`: guard then POST. -/
def declinePullRequest (params : PullRequestParams)
    (message : Option JSValue) : Except McpError ToolResult :=
  if prParamsMissing params then .error prParamsRequiredError
  else .ok (.declinePR (prEndpoint params "/decline") { version := -1, message := message })

/-- Handler `addComment`: guard, then the request body with conditional `parent`
and conditionally-spread anchor keys. -/
def addComment (params : PullRequestParams) (options : CommentOptions) :
    Except McpError CommentRequestBody :=
  if prParamsMissing params then .error prParamsRequiredError
  else .ok
    { text := options.text
      parent := if optTruthy options.parentId then options.parentId else none
      anchor := options.anchor.map fun anchor =>
        { diffType := anchor.diffType
          line := anchor.line
          lineType := anchor.lineType
          fileType := anchor.fileType
          path := anchor.path
          fromHash := if optTruthy anchor.fromHash then anchor.fromHash else none
          toHash := if optTruthy anchor.toHash then anchor.toHash else none
          srcPath := if optTruthy anchor.srcPath then anchor.srcPath else none } }

/-- Handler `getDiff`: guard, `contextLines` defaulted to 10 by parameter
default. -/
def getDiff (params : PullRequestParams) (contextLines : Option JSValue) :
    Except McpError ToolResult :=
  if prParamsMissing params then .error prParamsRequiredError
  else .ok (.diffPR (prEndpoint params "/diff") (contextLines.getD (.num 10)))

/-- Handler `getReviews` (request half): guard then GET on the activities
endpoint; the response filtering is `getReviewsFilter`. -/
def getReviews (params : PullRequestParams) : Except McpError ToolResult :=
  if prParamsMissing params then .error prParamsRequiredError
  else .ok (.reviewsPR (prEndpoint params "/activities"))

/-- A `BitbucketActivity` of the upstream activities payload: an `action`
string plus arbitrary further fields (the index signature), modelled
opaquely. -/
structure Activity where
  action : String
  rest : List (String × JSValue)
  deriving Repr, DecidableEq

/-- The response filtering of `getReviews`: keep activities whose action
is `APPROVED` or `REVIEWED`. -/
def getReviewsFilter (activities : List Activity) : List Activity :=
  activities.filter fun activity =>
    activity.action == "APPROVED" || activity.action == "REVIEWED"

/-- The `create_pull_request` validation error. -/
def invalidPRInputError : McpError :=
  { code := .invalidParams, message := "Invalid pull request input parameters" }

/-- The `CallToolRequestSchema` handler's `switch` on the tool name: each
case resolves parameters (project via `getProject`), validates, and runs
the tool handler; the `default` case fails with `MethodNotFound`.  An
`Except.error` result models a thrown `McpError`, in which case no
upstream call is made (every throw precedes the handler's HTTP call). -/
def dispatch (config : BitbucketConfig) (name : String) (args : Args) :
    Except McpError ToolResult :=
  if name = "list_projects" then
    .ok (listProjects args.limit args.start)
  else if name = "list_repositories" then
    .ok (listRepositories config args.project args.limit args.start)
  else if name = "list_pull_requests" then do
    let project ← getProject args.project config.defaultProject
    listPullRequests project args.repository args.state args.role
      args.order args.limit args.start
  else if name = "create_pull_request" then
    if ! isPullRequestInput args then .error invalidPRInputError
    else do
      let project ← getProject args.project config.defaultProject
      .ok (createPullRequest { args with project := some project })
  else if name = "get_pull_request" then do
    let project ← getProject args.project config.defaultProject
    getPullRequest ⟨some project, args.repository, args.prId⟩
  else if name = "merge_pull_request" then do
    let project ← getProject args.project config.defaultProject
    mergePullRequest ⟨some project, args.repository, args.prId⟩ args.message args.strategy
  else if name = "decline_pull_request" then do
    let project ← getProject args.project config.defaultProject
    declinePullRequest ⟨some project, args.repository, args.prId⟩ args.message
  else if name = "add_comment" then do
    let project ← getProject args.project config.defaultProject
    let anchor ← buildAnchor args
    (addComment ⟨some project, args.repository, args.prId⟩
      { text := args.text, parentId := args.parentId, anchor := anchor }).map
      fun body => .commentPR
        (prEndpoint ⟨some project, args.repository, args.prId⟩ "/comments") body
  else if name = "get_diff" then do
    let project ← getProject args.project config.defaultProject
    getDiff ⟨some project, args.repository, args.prId⟩ args.contextLines
  else if name = "get_reviews" then do
    let project ← getProject args.project config.defaultProject
    getReviews ⟨some project, args.repository, args.prId⟩
  else
    .error { code := .methodNotFound, message := "Unknown tool: " ++ name }

/-- A failure crossing the `CallToolRequestSchema` catch block: an
`McpError` thrown by validation/handlers, an axios transport error
(`response?.data.message` when the payload carries one, plus the generic
transport `message`), or any other thrown value. -/
inductive Thrown where
  | mcp (code : ErrorCode) (message : String)
  | axiosErr (dataMessage : Option String) (message : String)
  | other (message : String)
  deriving Repr, DecidableEq

/-- The catch block of the `CallToolRequestSchema` handler: axios errors
are re-wrapped as `McpError(InternalError, "Bitbucket API error: " +
(payload message ?? transport message))`; everything else is rethrown
unchanged. -/
def classifyError : Thrown → Thrown
  | .axiosErr dataMessage message =>
      .mcp .internalError ("Bitbucket API error: " ++ (dataMessage.getD message))
  | e => e

/-- The eight tool names whose dispatch case resolves the project through
`getProject` (every project-declaring tool except `list_repositories`). -/
def projectResolvingTools : List String :=
  ["list_pull_requests", "create_pull_request", "get_pull_request",
   "merge_pull_request", "decline_pull_request", "add_comment",
   "get_diff", "get_reviews"]

/-! Helper lemmas: case equations of `dispatch` and small facts about
truthiness-based constructions. -/

theorem dispatch_add_comment_eq (config : BitbucketConfig) (args : Args) :
    dispatch config "add_comment" args = (do
      let project ← getProject args.project config.defaultProject
      let anchor ← buildAnchor args
      (addComment ⟨some project, args.repository, args.prId⟩
        { text := args.text, parentId := args.parentId, anchor := anchor }).map
        fun body => ToolResult.commentPR
          (prEndpoint ⟨some project, args.repository, args.prId⟩ "/comments") body) := rfl

theorem dispatch_create_eq (config : BitbucketConfig) (args : Args) :
    dispatch config "create_pull_request" args =
      (if ! isPullRequestInput args then .error invalidPRInputError
       else do
        let project ← getProject args.project config.defaultProject
        .ok (createPullRequest { args with project := some project })) := rfl

theorem dispatch_list_repositories_eq (config : BitbucketConfig) (args : Args) :
    dispatch config "list_repositories" args =
      .ok (listRepositories config args.project args.limit args.start) := rfl

theorem dispatch_list_pull_requests_eq (config : BitbucketConfig) (args : Args) :
    dispatch config "list_pull_requests" args = (do
      let project ← getProject args.project config.defaultProject
      listPullRequests project args.repository args.state args.role
        args.order args.limit args.start) := rfl

theorem dispatch_get_pull_request_eq (config : BitbucketConfig) (args : Args) :
    dispatch config "get_pull_request" args = (do
      let project ← getProject args.project config.defaultProject
      getPullRequest ⟨some project, args.repository, args.prId⟩) := rfl

theorem dispatch_merge_eq (config : BitbucketConfig) (args : Args) :
    dispatch config "merge_pull_request" args = (do
      let project ← getProject args.project config.defaultProject
      mergePullRequest ⟨some project, args.repository, args.prId⟩
        args.message args.strategy) := rfl

theorem dispatch_decline_eq (config : BitbucketConfig) (args : Args) :
    dispatch config "decline_pull_request" args = (do
      let project ← getProject args.project config.defaultProject
      declinePullRequest ⟨some project, args.repository, args.prId⟩ args.message) := rfl

theorem dispatch_get_diff_eq (config : BitbucketConfig) (args : Args) :
    dispatch config "get_diff" args = (do
      let project ← getProject args.project config.defaultProject
      getDiff ⟨some project, args.repository, args.prId⟩ args.contextLines) := rfl

theorem dispatch_get_reviews_eq (config : BitbucketConfig) (args : Args) :
    dispatch config "get_reviews" args = (do
      let project ← getProject args.project config.defaultProject
      getReviews ⟨some project, args.repository, args.prId⟩) := rfl

theorem getProject_ok_truthy {x : Option JSValue} {d : Option String} {v : JSValue}
    (h : getProject x d = .ok v) : jsTruthy v = true := by
  unfold getProject at h
  rcases hm : (if optTruthy x then x else Option.map JSValue.str d) with _ | w
  · rw [hm] at h; simp at h
  · rw [hm] at h
    by_cases hw : jsTruthy w = true
    · simp [hw] at h; exact h ▸ hw
    · simp [hw] at h

theorem getProject_no_default {dflt : Option String} (hd : strTruthy dflt = false) :
    getProject none dflt = .error projectRequiredError := by
  cases dflt <;> simp_all [getProject, strTruthy, optTruthy, jsTruthy]

theorem jsOr_shape {x : Option JSValue} (d : JSValue)
    (hx : x = none ∨ ∃ s, s ≠ "" ∧ x = some (.str s)) :
    jsOr x d = x.getD d := by
  rcases hx with rfl | ⟨s, hs, rfl⟩
  · simp [jsOr]
  · simp [jsOr, jsTruthy, hs]

theorem truthyIf_shape {x : Option JSValue}
    (hx : x = none ∨ ∃ s, s ≠ "" ∧ x = some (.str s)) :
    (if optTruthy x then x else none) = x := by
  rcases hx with rfl | ⟨s, hs, rfl⟩
  · simp [optTruthy]
  · simp [optTruthy, jsTruthy, hs]

theorem buildAnchor_some {args : Args} {p : String} {n : Int}
    (hpath : args.filePath = some (.str p)) (hp : p ≠ "")
    (hline : args.lineNumber = some (.num n)) (hn : n ≠ 0)
    (hdiff : args.diffType = none ∨ ∃ s, s ≠ "" ∧ args.diffType = some (.str s))
    (hlt : args.lineType = none ∨ ∃ s, s ≠ "" ∧ args.lineType = some (.str s))
    (hft : args.fileType = none ∨ ∃ s, s ≠ "" ∧ args.fileType = some (.str s)) :
    buildAnchor args = .ok (some
      { diffType := args.diffType.getD (.str "EFFECTIVE")
        line := .num n
        lineType := args.lineType.getD (.str "CONTEXT")
        fileType := args.fileType.getD (.str "TO")
        path := .str p
        srcPath := some (.str p)
        fromHash := if optTruthy args.fromHash then args.fromHash else none
        toHash := if optTruthy args.toHash then args.toHash else none }) := by
  unfold buildAnchor
  rw [hpath, hline]
  simp [optTruthy, jsTruthy, hp, hn,
    jsOr_shape _ hdiff, jsOr_shape _ hlt, jsOr_shape _ hft]

theorem prParamsMissing_false {pv : JSValue} {repo prId : Option JSValue}
    (hpv : jsTruthy pv = true) (hr : optTruthy repo = true) (hi : optTruthy prId = true) :
    prParamsMissing ⟨some pv, repo, prId⟩ = false := by
  have hp' : optTruthy (some pv) = true := by simp [optTruthy, hpv]
  simp [prParamsMissing, hp', hr, hi]

theorem addComment_ok {params : PullRequestParams} {options : CommentOptions}
    (h : prParamsMissing params = false) :
    addComment params options = .ok
      { text := options.text
        parent := if optTruthy options.parentId then options.parentId else none
        anchor := options.anchor.map fun anchor =>
          { diffType := anchor.diffType
            line := anchor.line
            lineType := anchor.lineType
            fileType := anchor.fileType
            path := anchor.path
            fromHash := if optTruthy anchor.fromHash then anchor.fromHash else none
            toHash := if optTruthy anchor.toHash then anchor.toHash else none
            srcPath := if optTruthy anchor.srcPath then anchor.srcPath else none } } := by
  unfold addComment
  simp [h]

theorem except_bind_ok {ε α β : Type} (a : α) (f : α → Except ε β) :
    (Bind.bind (Except.ok a) f) = f a := rfl

theorem except_bind_error {ε α β : Type} (e : ε) (f : α → Except ε β) :
    (Bind.bind (Except.error e : Except ε α) f) = .error e := rfl

theorem except_map_ok {ε α β : Type} (f : α → β) (a : α) :
    (Except.ok a : Except ε α).map f = .ok (f a) := rfl

theorem except_map_error {ε α β : Type} (f : α → β) (e : ε) :
    (Except.error e : Except ε α).map f = .error e := rfl

theorem buildAnchor_no_path {args : Args} (h : optTruthy args.filePath = false) :
    buildAnchor args = .ok none := by
  unfold buildAnchor
  simp [h]

theorem buildAnchor_line_falsy {args : Args} (hfp : optTruthy args.filePath = true)
    (hln : optTruthy args.lineNumber = false) :
    buildAnchor args = .error lineNumberRequiredError := by
  unfold buildAnchor
  simp [hfp, hln]

/-! Claim theorems. -/

/-- C3 counterexample: a non-transport failure (an `InvalidParams`
`McpError` thrown inside the handler) is rethrown by the catch block
unchanged, with its code still `InvalidParams` — not `InternalError` as
the claim states. -/
theorem C3_rethrow_keeps_invalid_params :
    classifyError (.mcp .invalidParams "Invalid pull request input parameters") =
      .mcp .invalidParams "Invalid pull request input parameters" ∧
    ErrorCode.invalidParams ≠ ErrorCode.internalError :=
  ⟨rfl, by decide⟩

/-- C3 (amended): transport-level axios failures are re-wrapped as an
`McpError` carrying code `InternalError` and message `"Bitbucket API
error: "` followed by the upstream payload message when present,
otherwise the generic transport message; every non-transport failure is
rethrown unchanged, keeping its original classification.  The spec's
concrete scenario (`{response:{data:{message:"Not found"}}}`) yields the
message `"Bitbucket API error: Not found"`. -/
theorem C3_error_classification :
    (∀ (dataMessage : Option String) (message : String),
      classifyError (.axiosErr dataMessage message) =
        .mcp .internalError ("Bitbucket API error: " ++ dataMessage.getD message)) ∧
    (∀ (code : ErrorCode) (msg : String), classifyError (.mcp code msg) = .mcp code msg) ∧
    (∀ msg : String, classifyError (.other msg) = .other msg) ∧
    classifyError (.axiosErr (some "Not found") "Request failed with status code 404") =
      .mcp .internalError "Bitbucket API error: Not found" :=
  ⟨fun _ _ => rfl, fun _ _ => rfl, fun _ => rfl, rfl⟩

/-- C6: dispatching any name that is not in the tool registry fails with
`MethodNotFound` and message `"Unknown tool: <name>"`, with no validation
or upstream call. -/
theorem C6_unknown_tool (config : BitbucketConfig) (toolName : String) (args : Args)
    (h : toolName ∉ (listToolsHandler config).map ToolDescriptor.name) :
    dispatch config toolName args =
      .error { code := .methodNotFound, message := "Unknown tool: " ++ toolName } := by
  simp only [listToolsHandler, List.map_cons, List.map_nil, List.mem_cons,
    List.not_mem_nil, or_false, not_or] at h
  obtain ⟨h1, h2, h3, h4, h5, h6, h7, h8, h9, h10⟩ := h
  unfold dispatch
  rw [if_neg h1, if_neg h2, if_neg h3, if_neg h4, if_neg h5,
    if_neg h6, if_neg h7, if_neg h8, if_neg h9, if_neg h10]

/-- C6 witness: `dispatch("bogus_tool", {})` fails with `MethodNotFound`
and message `"Unknown tool: bogus_tool"`. -/
theorem C6_unknown_tool_witness :
    dispatch ⟨"http://bitbucket", some "tok", none, none, none⟩ "bogus_tool" {} =
      .error { code := .methodNotFound, message := "Unknown tool: bogus_tool" } := by
  have h := C6_unknown_tool ⟨"http://bitbucket", some "tok", none, none, none⟩
    "bogus_tool" {} (by decide)
  simpa using h

/-- C7: the `get_reviews` response filtering returns exactly the
activities whose action is `APPROVED` or `REVIEWED`, in their original
relative order (a sublist of the input), and the spec's concrete activity
list yields exactly its `APPROVED` and `REVIEWED` entries. -/
theorem C7_reviews_filter (activities : List Activity) :
    ((getReviewsFilter activities).Sublist activities ∧
      ∀ a : Activity, a ∈ getReviewsFilter activities ↔
        a ∈ activities ∧ (a.action = "APPROVED" ∨ a.action = "REVIEWED")) ∧
    getReviewsFilter [⟨"APPROVED", []⟩, ⟨"COMMENTED", []⟩, ⟨"REVIEWED", []⟩] =
      [⟨"APPROVED", []⟩, ⟨"REVIEWED", []⟩] := by
  refine ⟨⟨List.filter_sublist _, fun a => ?_⟩, by decide⟩
  simp [getReviewsFilter, List.mem_filter]

/-- C8: the list-tools query is a pure function of no mutable state (its
output does not depend on the server configuration at all), hence two
calls with no intervening state change return identical descriptor
sequences, in the fixed registration order. -/
theorem C8_list_tools_deterministic :
    ∀ c₁ c₂ : BitbucketConfig, listToolsHandler c₁ = listToolsHandler c₂ ∧
      (listToolsHandler c₁).map ToolDescriptor.name =
        ["list_projects", "list_repositories", "list_pull_requests",
         "create_pull_request", "get_pull_request", "merge_pull_request",
         "decline_pull_request", "add_comment", "get_diff", "get_reviews"] :=
  fun _ _ => ⟨rfl, rfl⟩

/-- C1: for every `add_comment` input supplying a file path and a line
number (and well-formed optional enum/hash fields: absent or non-empty
strings), the comment sent upstream carries an anchor whose `diffType`,
`lineType` and `fileType` default to `EFFECTIVE`, `CONTEXT` and `TO` when
absent, whose `path` and `srcPath` both equal the supplied file path,
whose `line` equals the supplied line number, and whose
`fromHash`/`toHash` keys are present exactly when the caller supplied
them. -/
theorem C1_anchor_defaults_and_hash_inclusion
    (config : BitbucketConfig) (args : Args) (pv : JSValue) (p : String) (n : Int)
    (hproj : getProject args.project config.defaultProject = .ok pv)
    (hpath : args.filePath = some (.str p)) (hp : p ≠ "")
    (hline : args.lineNumber = some (.num n)) (hn : n ≠ 0)
    (hrepo : optTruthy args.repository = true)
    (hprid : optTruthy args.prId = true)
    (hdiff : args.diffType = none ∨ ∃ s, s ≠ "" ∧ args.diffType = some (.str s))
    (hlt : args.lineType = none ∨ ∃ s, s ≠ "" ∧ args.lineType = some (.str s))
    (hft : args.fileType = none ∨ ∃ s, s ≠ "" ∧ args.fileType = some (.str s))
    (hfrom : args.fromHash = none ∨ ∃ s, s ≠ "" ∧ args.fromHash = some (.str s))
    (hto : args.toHash = none ∨ ∃ s, s ≠ "" ∧ args.toHash = some (.str s)) :
    dispatch config "add_comment" args =
      .ok (.commentPR (prEndpoint ⟨some pv, args.repository, args.prId⟩ "/comments")
        { text := args.text
          parent := if optTruthy args.parentId then args.parentId else none
          anchor := some
            { diffType := args.diffType.getD (.str "EFFECTIVE")
              line := .num n
              lineType := args.lineType.getD (.str "CONTEXT")
              fileType := args.fileType.getD (.str "TO")
              path := .str p
              fromHash := args.fromHash
              toHash := args.toHash
              srcPath := some (.str p) } }) := by
  have hpv := getProject_ok_truthy hproj
  rw [dispatch_add_comment_eq, hproj, except_bind_ok,
    buildAnchor_some hpath hp hline hn hdiff hlt hft, except_bind_ok,
    addComment_ok (prParamsMissing_false hpv hrepo hprid), except_map_ok]
  simp only [Option.map_some', truthyIf_shape hfrom, truthyIf_shape hto]
  simp [optTruthy, jsTruthy, hp]

/-- C1 witness: the spec's Anchor Builder example — a file path and a line
number of 42, no other anchor fields — yields the anchor
`{diffType: EFFECTIVE, lineType: CONTEXT, fileType: TO, path, srcPath,
line: 42}` with no `fromHash`/`toHash` keys present. -/
theorem C1_anchor_defaults_witness :
    dispatch ⟨"http://bitbucket", some "tok", none, none, some "PRJ"⟩ "add_comment"
        { repository := some (.str "repo"), prId := some (.num 1),
          text := some (.str "Looks good"),
          filePath := some (.str "src/main.ts"), lineNumber := some (.num 42) } =
      .ok (.commentPR "/projects/PRJ/repos/repo/pull-requests/1/comments"
        { text := some (.str "Looks good")
          parent := none
          anchor := some
            { diffType := .str "EFFECTIVE"
              line := .num 42
              lineType := .str "CONTEXT"
              fileType := .str "TO"
              path := .str "src/main.ts"
              fromHash := none
              toHash := none
              srcPath := some (.str "src/main.ts") } }) := by
  have h := C1_anchor_defaults_and_hash_inclusion
    ⟨"http://bitbucket", some "tok", none, none, some "PRJ"⟩
    { repository := some (.str "repo"), prId := some (.num 1),
      text := some (.str "Looks good"),
      filePath := some (.str "src/main.ts"), lineNumber := some (.num 42) }
    (.str "PRJ") "src/main.ts" 42
    rfl rfl (by decide) rfl (by decide) rfl rfl
    (Or.inl rfl) (Or.inl rfl) (Or.inl rfl) (Or.inl rfl) (Or.inl rfl)
  simpa using h

/-- C2 counterexample: with a file path supplied and no line number, the
dispatcher does fail with `InvalidParams`, but the message it carries is
`"lineNumber is required when filePath is provided for file line
comments"`, not the claim's exact `"lineNumber is required when filePath
is provided"`. -/
theorem C2_message_differs :
    dispatch ⟨"http://bitbucket", some "tok", none, none, some "PRJ"⟩ "add_comment"
        { repository := some (.str "repo"), prId := some (.num 7),
          text := some (.str "hi"), filePath := some (.str "src/a.ts") } =
      .error lineNumberRequiredError ∧
    lineNumberRequiredError.message ≠ "lineNumber is required when filePath is provided" :=
  ⟨rfl, by decide⟩

/-- C2 (amended): for every `add_comment` input, when no file-path field
is present the anchor is absent and a plain non-anchored comment is sent;
when a file path is present but no line-number field is, the call fails
with `InvalidParams` carrying the message `"lineNumber is required when
filePath is provided for file line comments"`, and no upstream request is
made. -/
theorem C2_plain_comment_or_line_required
    (config : BitbucketConfig) (args : Args) (pv : JSValue)
    (hproj : getProject args.project config.defaultProject = .ok pv) :
    (args.filePath = none →
      optTruthy args.repository = true → optTruthy args.prId = true →
      dispatch config "add_comment" args =
        .ok (.commentPR (prEndpoint ⟨some pv, args.repository, args.prId⟩ "/comments")
          { text := args.text
            parent := if optTruthy args.parentId then args.parentId else none
            anchor := none })) ∧
    (∀ p : String, args.filePath = some (.str p) → p ≠ "" → args.lineNumber = none →
      dispatch config "add_comment" args = .error lineNumberRequiredError) := by
  have hpv := getProject_ok_truthy hproj
  constructor
  · intro hfp hrepo hprid
    rw [dispatch_add_comment_eq, hproj, except_bind_ok,
      buildAnchor_no_path (by simp [hfp, optTruthy]), except_bind_ok,
      addComment_ok (prParamsMissing_false hpv hrepo hprid), except_map_ok]
    simp
  · intro p hfp hp hln
    rw [dispatch_add_comment_eq, hproj, except_bind_ok,
      buildAnchor_line_falsy (by simp [hfp, optTruthy, jsTruthy, hp])
        (by simp [hln, optTruthy]),
      except_bind_error]

/-- C2 witness: with neither field the anchor is absent and a plain
comment body is sent; with a file path and no line number the dispatcher
fails with the (full) `InvalidParams` message. -/
theorem C2_plain_comment_or_line_required_witness :
    dispatch ⟨"http://bitbucket", some "tok", none, none, some "PRJ"⟩ "add_comment"
        { repository := some (.str "repo"), prId := some (.num 7),
          text := some (.str "hi") } =
      .ok (.commentPR "/projects/PRJ/repos/repo/pull-requests/7/comments"
        { text := some (.str "hi"), parent := none, anchor := none }) ∧
    dispatch ⟨"http://bitbucket", some "tok", none, none, some "PRJ"⟩ "add_comment"
        { repository := some (.str "repo"), prId := some (.num 7),
          text := some (.str "hi"), filePath := some (.str "src/a.ts") } =
      .error lineNumberRequiredError := by
  constructor
  · have h := (C2_plain_comment_or_line_required
      ⟨"http://bitbucket", some "tok", none, none, some "PRJ"⟩
      { repository := some (.str "repo"), prId := some (.num 7),
        text := some (.str "hi") } (.str "PRJ") rfl).1 rfl rfl rfl
    simpa using h
  · exact (C2_plain_comment_or_line_required
      ⟨"http://bitbucket", some "tok", none, none, some "PRJ"⟩
      { repository := some (.str "repo"), prId := some (.num 7),
        text := some (.str "hi"), filePath := some (.str "src/a.ts") }
      (.str "PRJ") rfl).2 "src/a.ts" rfl (by decide) rfl

/-- C10: the `add_comment` checks are truthiness checks, not presence
checks — an empty-string `filePath` yields a plain non-anchored comment
(no error), a non-empty `filePath` with `lineNumber` equal to `0` fails
with `InvalidParams` even though a line number was supplied, and a
`parentId` of `0` produces a top-level comment (no `parent` key). -/
theorem C10_truthiness_not_presence :
    (∀ (config : BitbucketConfig) (args : Args) (pv : JSValue),
      getProject args.project config.defaultProject = .ok pv →
      args.filePath = some (.str "") →
      optTruthy args.repository = true → optTruthy args.prId = true →
      dispatch config "add_comment" args =
        .ok (.commentPR (prEndpoint ⟨some pv, args.repository, args.prId⟩ "/comments")
          { text := args.text
            parent := if optTruthy args.parentId then args.parentId else none
            anchor := none })) ∧
    (∀ (args : Args) (p : String), args.filePath = some (.str p) → p ≠ "" →
      args.lineNumber = some (.num 0) →
      buildAnchor args = .error lineNumberRequiredError) ∧
    (∀ (params : PullRequestParams) (options : CommentOptions),
      prParamsMissing params = false → options.parentId = some (.num 0) →
      ∃ body, addComment params options = .ok body ∧ body.parent = none) := by
  refine ⟨?_, ?_, ?_⟩
  · intro config args pv hproj hfp hrepo hprid
    have hpv := getProject_ok_truthy hproj
    rw [dispatch_add_comment_eq, hproj, except_bind_ok,
      buildAnchor_no_path (by simp [hfp, optTruthy, jsTruthy]), except_bind_ok,
      addComment_ok (prParamsMissing_false hpv hrepo hprid), except_map_ok]
    simp
  · intro args p hfp hp hln
    exact buildAnchor_line_falsy (by simp [hfp, optTruthy, jsTruthy, hp])
      (by simp [hln, optTruthy, jsTruthy])
  · intro params options h hpid
    refine ⟨_, addComment_ok h, ?_⟩
    simp [hpid, optTruthy, jsTruthy]

/-- C10 witness: an empty `filePath` sends a plain comment, a zero
`lineNumber` under a real file path is rejected, and a zero `parentId`
yields a top-level comment. -/
theorem C10_truthiness_not_presence_witness :
    dispatch ⟨"http://bitbucket", some "tok", none, none, some "PRJ"⟩ "add_comment"
        { repository := some (.str "repo"), prId := some (.num 7),
          text := some (.str "hi"), filePath := some (.str "") } =
      .ok (.commentPR "/projects/PRJ/repos/repo/pull-requests/7/comments"
        { text := some (.str "hi"), parent := none, anchor := none }) ∧
    buildAnchor { filePath := some (.str "src/a.ts"), lineNumber := some (.num 0) } =
      .error lineNumberRequiredError ∧
    (∃ body, addComment ⟨some (.str "PRJ"), some (.str "repo"), some (.num 7)⟩
        { text := some (.str "hi"), parentId := some (.num 0), anchor := none } =
          .ok body ∧ body.parent = none) := by
  refine ⟨?_, ?_, ?_⟩
  · have h := C10_truthiness_not_presence.1
      ⟨"http://bitbucket", some "tok", none, none, some "PRJ"⟩
      { repository := some (.str "repo"), prId := some (.num 7),
        text := some (.str "hi"), filePath := some (.str "") }
      (.str "PRJ") rfl rfl rfl rfl
    simpa using h
  · exact C10_truthiness_not_presence.2.1
      { filePath := some (.str "src/a.ts"), lineNumber := some (.num 0) }
      "src/a.ts" rfl (by decide) rfl
  · exact C10_truthiness_not_presence.2.2
      ⟨some (.str "PRJ"), some (.str "repo"), some (.num 7)⟩
      { text := some (.str "hi"), parentId := some (.num 0), anchor := none }
      rfl rfl

/-- C5: for every `create_pull_request` input in which `repository`,
`title`, `sourceBranch` or `targetBranch` is absent or not a string, or
`description` is present and not a string, or `reviewers` is present and
not an array, dispatch fails with `InvalidParams` (and hence never
reaches the upstream adapter); the validator is indifferent to whether
`project` is absent or a string. -/
theorem C5_create_validation :
    (∀ (config : BitbucketConfig) (args : Args),
      (isStr args.repository = false ∨ isStr args.title = false ∨
        isStr args.sourceBranch = false ∨ isStr args.targetBranch = false ∨
        (args.description ≠ none ∧ isStr args.description = false) ∨
        (args.reviewers ≠ none ∧ isArr args.reviewers = false)) →
      dispatch config "create_pull_request" args = .error invalidPRInputError) ∧
    (∀ (args : Args) (s : String),
      isPullRequestInput { args with project := none } =
        isPullRequestInput { args with project := some (.str s) }) := by
  constructor
  · intro config args h
    have hval : isPullRequestInput args = false := by
      unfold isPullRequestInput
      rcases h with h | h | h | h | ⟨h1, h2⟩ | ⟨h1, h2⟩ <;> simp_all
    rw [dispatch_create_eq, if_pos (by simp [hval])]
  · intro args s
    simp [isPullRequestInput, isStr]

/-- C5 witness: an input missing `title` (all other fields well-formed)
is rejected with the `InvalidParams` validation error. -/
theorem C5_create_validation_witness :
    isStr (({ repository := some (.str "repo"),
              sourceBranch := some (.str "feature"),
              targetBranch := some (.str "main") } : Args).title) = false ∧
    dispatch ⟨"http://bitbucket", some "tok", none, none, some "PRJ"⟩ "create_pull_request"
        { repository := some (.str "repo"), sourceBranch := some (.str "feature"),
          targetBranch := some (.str "main") } =
      .error invalidPRInputError :=
  ⟨rfl, C5_create_validation.1 ⟨"http://bitbucket", some "tok", none, none, some "PRJ"⟩
    { repository := some (.str "repo"), sourceBranch := some (.str "feature"),
      targetBranch := some (.str "main") }
    (Or.inr (Or.inl rfl))⟩

/-- C4 counterexample: `list_repositories` declares a project concept
(its schema has a `project` field), yet dispatching it with `project`
omitted and no default configured does not fail with `InvalidParams` —
it succeeds, selecting the global `/repos` endpoint. -/
theorem C4_list_repositories_no_failure :
    dispatch ⟨"http://bitbucket", some "tok", none, none, none⟩ "list_repositories" {} =
      .ok (.repositories "/repos" (.num 25) (.num 0)) := rfl

/-- C4 (amended): every command that resolves its project through
`getProject` (all project-declaring commands except `list_repositories`)
resolves an omitted project to the configured default and fails with
`InvalidParams` before any upstream call when no default is configured;
`list_repositories` also resolves an omitted project to the default, but
with no default configured it succeeds, falling back to the `/repos`
endpoint. -/
theorem C4_project_default_resolution :
    (∀ d : String, d ≠ "" → getProject none (some d) = .ok (.str d)) ∧
    (∀ dflt : Option String, strTruthy dflt = false →
      getProject none dflt = .error projectRequiredError) ∧
    (∀ (config : BitbucketConfig) (args : Args) (d : String),
      args.project = none → config.defaultProject = some d → d ≠ "" →
      dispatch config "list_repositories" args =
        .ok (.repositories ("/projects/" ++ d ++ "/repos")
          (args.limit.getD (.num 25)) (args.start.getD (.num 0)))) ∧
    (∀ (config : BitbucketConfig) (args : Args),
      args.project = none → strTruthy config.defaultProject = false →
      ∀ toolName ∈ projectResolvingTools,
        ∃ msg, dispatch config toolName args =
          .error { code := .invalidParams, message := msg }) ∧
    (∀ (config : BitbucketConfig) (args : Args),
      args.project = none → strTruthy config.defaultProject = false →
      dispatch config "list_repositories" args =
        .ok (.repositories "/repos" (args.limit.getD (.num 25)) (args.start.getD (.num 0)))) := by
  refine ⟨?_, fun _ hd => getProject_no_default hd, ?_, ?_, ?_⟩
  · intro d hd
    simp [getProject, optTruthy, jsTruthy, hd]
  · intro config args d hp hd hne
    rw [dispatch_list_repositories_eq]
    unfold listRepositories
    simp [hp, hd, optTruthy, strTruthy, hne, jsToStringOpt, jsToString]
  · intro config args hp hd toolName hmem
    have hproj : getProject args.project config.defaultProject = .error projectRequiredError := by
      rw [hp]; exact getProject_no_default hd
    simp only [projectResolvingTools, List.mem_cons, List.not_mem_nil, or_false] at hmem
    rcases hmem with rfl | rfl | rfl | rfl | rfl | rfl | rfl | rfl
    · rw [dispatch_list_pull_requests_eq, hproj, except_bind_error]
      exact ⟨_, rfl⟩
    · by_cases hval : isPullRequestInput args
      · rw [dispatch_create_eq, if_neg (by simp [hval]), hproj, except_bind_error]
        exact ⟨_, rfl⟩
      · have hval' : isPullRequestInput args = false := by
          cases hb : isPullRequestInput args
          · rfl
          · exact absurd hb hval
        rw [dispatch_create_eq, if_pos (by simp [hval'])]
        exact ⟨_, rfl⟩
    · rw [dispatch_get_pull_request_eq, hproj, except_bind_error]
      exact ⟨_, rfl⟩
    · rw [dispatch_merge_eq, hproj, except_bind_error]
      exact ⟨_, rfl⟩
    · rw [dispatch_decline_eq, hproj, except_bind_error]
      exact ⟨_, rfl⟩
    · rw [dispatch_add_comment_eq, hproj, except_bind_error]
      exact ⟨_, rfl⟩
    · rw [dispatch_get_diff_eq, hproj, except_bind_error]
      exact ⟨_, rfl⟩
    · rw [dispatch_get_reviews_eq, hproj, except_bind_error]
      exact ⟨_, rfl⟩
  · intro config args hp hd
    rw [dispatch_list_repositories_eq]
    unfold listRepositories
    simp [hp, hd, optTruthy]

/-- C4 witness: with a default project `PRJ`, an omitted project resolves
to `PRJ`; with no default, resolution fails with `InvalidParams`, and so
does dispatching `get_pull_request` with `project` omitted. -/
theorem C4_project_default_resolution_witness :
    getProject none (some "PRJ") = .ok (.str "PRJ") ∧
    getProject none none = .error projectRequiredError ∧
    (∃ msg, dispatch ⟨"http://bitbucket", some "tok", none, none, none⟩
        "get_pull_request" {} = .error { code := .invalidParams, message := msg }) :=
  ⟨C4_project_default_resolution.1 "PRJ" (by decide),
    C4_project_default_resolution.2.1 none rfl,
    C4_project_default_resolution.2.2.2.1
      ⟨"http://bitbucket", some "tok", none, none, none⟩ {} rfl rfl
      "get_pull_request" (by decide)⟩

/-- C9 counterexample: when both a bearer token and a complete
username/password pair are supplied, construction succeeds but wires BOTH
authentication modes into the HTTP client (the bearer header and the
basic-auth option), so exactly one mode is not selected. -/
theorem C9_both_auth_modes :
    mkConfig ⟨some "http://bitbucket", some "tok", some "user", some "pass", none⟩ =
      .ok (⟨"http://bitbucket", some "tok", some "user", some "pass", none⟩,
        ⟨"http://bitbucket/rest/api/1.0", some "Bearer tok", some ("user", "pass")⟩) ∧
    numAuthModes ⟨"http://bitbucket/rest/api/1.0", some "Bearer tok", some ("user", "pass")⟩ = 2 :=
  ⟨rfl, rfl⟩

/-- C9 (amended): construction fails exactly when the base URL is empty
or when neither a non-empty bearer token nor a complete (both non-empty)
username+password pair is present; on success at least one authentication
mode is configured, and exactly one unless both kinds of credentials were
supplied together. -/
theorem C9_config_validation (env : Env) :
    ((∃ result, mkConfig env = .ok result) ↔
      (env.bitbucketUrl.getD "" ≠ "" ∧
        (strTruthy env.bitbucketToken = true ∨
          (strTruthy env.bitbucketUsername = true ∧
            strTruthy env.bitbucketPassword = true)))) ∧
    (∀ config settings, mkConfig env = .ok (config, settings) →
      1 ≤ numAuthModes settings) ∧
    (∀ config settings, mkConfig env = .ok (config, settings) →
      ¬ (strTruthy env.bitbucketToken = true ∧ strTruthy env.bitbucketUsername = true ∧
          strTruthy env.bitbucketPassword = true) →
      numAuthModes settings = 1) := by
  obtain ⟨url, tok, user, pass, dflt⟩ := env
  simp only [mkConfig]
  split_ifs with h1 h2
  · refine ⟨by simp [h1], fun c s h => by simp at h, fun c s h _ => by simp at h⟩
  · refine ⟨?_, fun c s h => by simp at h, fun c s h _ => by simp at h⟩
    constructor
    · rintro ⟨r, hr⟩; exact absurd hr (by simp)
    · rintro ⟨_, hcred⟩
      rcases h2 with ⟨ht, hup⟩
      rcases hcred with h | h
      · exact absurd h ht
      · exact absurd ⟨h.1, h.2⟩ hup
  · have hcred : strTruthy tok = true ∨
        (strTruthy user = true ∧ strTruthy pass = true) := by
      by_contra hc
      push_neg at hc
      exact h2 ⟨fun h => hc.1 h, fun h => hc.2 h.1 h.2⟩
    refine ⟨?_, ?_, ?_⟩
    · exact ⟨fun _ => ⟨h1, hcred⟩, fun _ => ⟨_, rfl⟩⟩
    · intro c s h
      have hs : s = mkApiSettings ⟨url.getD "", tok, user, pass, dflt⟩ := by
        injection h with h'
        exact (congrArg Prod.snd h').symm
      subst hs
      rcases hcred with ht | ⟨hu, hpw⟩
      · cases tok with
        | none => simp [strTruthy] at ht
        | some t =>
          have htt : t ≠ "" := by simpa [strTruthy] using ht
          simp [mkApiSettings, numAuthModes, htt]
      · cases user with
        | none => simp [strTruthy] at hu
        | some u =>
          cases pass with
          | none => simp [strTruthy] at hpw
          | some pw =>
            have huu : u ≠ "" := by simpa [strTruthy] using hu
            have hpp : pw ≠ "" := by simpa [strTruthy] using hpw
            simp [mkApiSettings, numAuthModes, strTruthy, huu, hpp]
    · intro c s h hnot
      have hs : s = mkApiSettings ⟨url.getD "", tok, user, pass, dflt⟩ := by
        injection h with h'
        exact (congrArg Prod.snd h').symm
      subst hs
      rcases hcred with ht | ⟨hu, hpw⟩
      · have hnp : ¬ (strTruthy user = true ∧ strTruthy pass = true) := by
          intro hq; exact hnot ⟨ht, hq.1, hq.2⟩
        cases tok with
        | none => simp [strTruthy] at ht
        | some t =>
          have htt : t ≠ "" := by simpa [strTruthy] using ht
          simp [mkApiSettings, numAuthModes, htt, hnp]
      · have hnt : strTruthy tok = false := by
          rcases Bool.eq_false_or_eq_true (strTruthy tok) with h' | h'
          · exact absurd ⟨h', hu, hpw⟩ hnot
          · exact h'
        cases user with
        | none => simp [strTruthy] at hu
        | some u =>
          cases pass with
          | none => simp [strTruthy] at hpw
          | some pw =>
            have huu : u ≠ "" := by simpa [strTruthy] using hu
            have hpp : pw ≠ "" := by simpa [strTruthy] using hpw
            cases tok with
            | none =>
              simp [mkApiSettings, numAuthModes, strTruthy, huu, hpp]
            | some t =>
              have htt : t = "" := by simpa [strTruthy] using hnt
              simp [mkApiSettings, numAuthModes, strTruthy, huu, hpp, htt]

/-- C9 witness: a token-only environment constructs successfully with
exactly one authentication mode. -/
theorem C9_config_validation_witness :
    (∃ result, mkConfig ⟨some "http://bitbucket", some "tok", none, none, none⟩ =
      .ok result) ∧
    numAuthModes (mkApiSettings ⟨"http://bitbucket", some "tok", none, none, none⟩) = 1 := by
  constructor
  · exact (C9_config_validation
      ⟨some "http://bitbucket", some "tok", none, none, none⟩).1.mpr
      ⟨by decide, Or.inl rfl⟩
  · have h := (C9_config_validation
      ⟨some "http://bitbucket", some "tok", none, none, none⟩).2.2
      ⟨"http://bitbucket", some "tok", none, none, none⟩
      (mkApiSettings ⟨"http://bitbucket", some "tok", none, none, none⟩)
      rfl (by decide)
    exact h

end BitbucketMcp
